import Mathlib

/-!
Verification of the vue-drupal-auth authentication helper (src/auth.js).

The JavaScript module is shallowly embedded: the browser localStorage is a
record of the four keys the module touches, environment configuration is a
record of optional strings, and each network-performing function is split
into (a) the request it builds and (b) a pure continuation applied to the
simulated response. JavaScript coercions that matter are modelled
explicitly: localStorage.setItem and FormData.append coerce the JS value
null to the string "null" and undefined to "undefined", and a string is
truthy exactly when it is non-empty.
-/

namespace VueDrupalAuth

/-- A JavaScript value handed to localStorage.setItem or FormData.append:
either null or a string. -/
inductive JSValue where
  | null
  | str (s : String)
deriving DecidableEq, Repr

/-- The WebIDL string coercion applied by setItem and append: null becomes
the string "null". -/
def JSValue.toStr : JSValue → String
  | .null => "null"
  | .str s => s

/-- Truthiness of a possibly-absent string (localStorage.getItem result or
environment variable): null/undefined is falsy, the empty string is falsy,
every other string is truthy. -/
def truthy : Option String → Bool
  | none => false
  | some s => s != ""

/-- Coercion of a localStorage.getItem result used inside a template
literal or FormData.append: the JS null becomes "null". -/
def itemToStr : Option String → String
  | none => "null"
  | some s => s

/-- Coercion of a possibly-undefined environment variable used inside
FormData.append: undefined becomes "undefined". -/
def envToStr : Option String → String
  | none => "undefined"
  | some s => s

/-- The environment variables read by the module (process.env), each
possibly undefined. -/
structure Env where
  clientId : Option String
  clientSecret : Option String
  oauthEndpointVar : Option String
  redirectUri : Option String
  csrfEndpointVar : Option String
deriving DecidableEq, Repr

/-- The localStorage slots the module reads and writes. An absent entry is
the JS null returned by getItem; setItem always stores a string. -/
structure Store where
  access_token : Option String
  refresh_token : Option String
  username : Option String
  csrfToken : Option String
deriving DecidableEq, Repr

/-- The JS or-default idiom: env.X or a literal default, where the default
is used when the variable is undefined or empty. -/
def orDefault (v : Option String) (d : String) : String :=
  match v with
  | none => d
  | some s => if s != "" then s else d

/-- Mode from the module-level check: if (process.env.VUE_APP_CLIENT_ID). -/
def isOAuth (env : Env) : Bool := truthy env.clientId

/-- Module-level oauthEndpoint: null unless VUE_APP_CLIENT_ID is truthy, in
which case VUE_APP_OAUTH_ENDPOINT with default /oauth/token. -/
def oauthEndpoint (env : Env) : Option String :=
  if truthy env.clientId then some (orDefault env.oauthEndpointVar "/oauth/token") else none

/-- CSRF endpoint: VUE_APP_CSRF_TOKEN_ENDPOINT with default /session/token. -/
def csrfEndpoint (env : Env) : String :=
  orDefault env.csrfEndpointVar "/session/token"

/-- setAccessToken(token): localStorage.setItem with string coercion, so
setAccessToken(null) stores the string "null". -/
def setAccessToken (token : JSValue) (st : Store) : Store :=
  { st with access_token := some token.toStr }

/-- The two headers the request interceptor may set. -/
structure Headers where
  authorization : Option String
  xCsrfToken : Option String
deriving DecidableEq, Repr

/-- An outgoing request right before send. -/
structure Request where
  url : String
  headers : Headers
deriving DecidableEq, Repr

/-- requestInterceptor from src/auth.js: if the stored access_token is
truthy set Authorization to a Bearer header, else if the stored csrfToken
is truthy set X-CSRF-Token, else return the request unchanged. -/
def requestInterceptor (st : Store) (request : Request) : Request :=
  let accessToken := st.access_token
  if truthy accessToken then
    { request with headers :=
        { request.headers with authorization := some ("Bearer " ++ itemToStr accessToken) } }
  else
    let csrfToken := st.csrfToken
    if truthy csrfToken then
      { request with headers :=
          { request.headers with xCsrfToken := some (itemToStr csrfToken) } }
    else request

/-- An axios client as far as this module configures it: a base URL and
which of the two interceptors were attached by createClient. -/
structure Client where
  baseURL : Option String
  hasRefreshInterceptor : Bool
  hasRequestInterceptor : Bool
deriving DecidableEq, Repr

/-- createClient(endpoint, skipAuthLogic): axios.create with the given
baseURL; unless skipAuthLogic is truthy, attach the refresh interceptor
(only when VUE_APP_CLIENT_ID is truthy) and the request interceptor. -/
def createClient (env : Env) (endpoint : Option String) (skipAuthLogic : Bool) : Client :=
  { baseURL := endpoint
    hasRefreshInterceptor := !skipAuthLogic && truthy env.clientId
    hasRequestInterceptor := !skipAuthLogic }

/-- The module-level tokenClient built at initialization: bound to the
oauth endpoint in OAuth mode, else to the CSRF endpoint, always with
skipAuthLogic true. -/
def tokenClient (env : Env) : Client :=
  if truthy env.clientId then createClient env (oauthEndpoint env) true
  else createClient env (some (csrfEndpoint env)) true

/-- A POST issued on the tokenClient: target url, form payload in append
order, content type, an explicit Authorization header override when the
call sets one, and the skipAuthRefresh flag. -/
structure TokenPost where
  clientBaseURL : Option String
  url : Option String
  form : List (String × String)
  contentType : String
  authorizationHeader : Option JSValue
  skipAuthRefresh : Bool
deriving DecidableEq, Repr

/-- The refresh guard in refreshAuthLogic:
if (VUE_APP_CLIENT_SECRET and VUE_APP_CLIENT_SECRET.length). -/
def clientSecretCond (env : Env) : Bool :=
  match env.clientSecret with
  | none => false
  | some s => (s != "") && (s.length != 0)

/-- The form payload refreshAuthLogic appends, in order; getItem on a
missing refresh_token contributes the string "null". -/
def refreshForm (env : Env) (st : Store) : List (String × String) :=
  [("grant_type", "refresh_token"),
   ("client_id", envToStr env.clientId),
   ("refresh_token", itemToStr st.refresh_token)]
  ++ (if clientSecretCond env then [("client_secret", envToStr env.clientSecret)] else [])

/-- The single POST refreshAuthLogic issues: tokenClient.post with empty
url, the refresh form, form-encoded content type, Authorization explicitly
nulled, and skipAuthRefresh true. -/
def refreshPost (env : Env) (st : Store) : TokenPost :=
  { clientBaseURL := (tokenClient env).baseURL
    url := some ""
    form := refreshForm env st
    contentType := "application/x-www-form-urlencoded"
    authorizationHeader := some JSValue.null
    skipAuthRefresh := true }

/-- All network calls one invocation of refreshAuthLogic performs. -/
def refreshPosts (env : Env) (st : Store) : List TokenPost :=
  [refreshPost env st]

/-- The token fields of a successful token-endpoint response body. -/
structure TokenResponse where
  access_token : String
  refresh_token : String
deriving DecidableEq, Repr

/-- How one refresh attempt settles: resolve (letting the transport retry
the original failed request) or propagate the rejection. -/
inductive RefreshResult where
  | retry (failedRequest : Request)
  | rejected
deriving DecidableEq, Repr

/-- The continuation of refreshAuthLogic on the refresh response: on
success store the new access_token and refresh_token and resolve with the
failed request; on failure the rejection propagates and nothing is
stored. -/
def refreshOutcome (st : Store) (failedRequest : Request)
    (resp : Option TokenResponse) : Store × RefreshResult :=
  match resp with
  | some r =>
    (({ setAccessToken (JSValue.str r.access_token) st with
        refresh_token := some r.refresh_token }), RefreshResult.retry failedRequest)
  | none => (st, RefreshResult.rejected)

/-- The client_secret guard in loginUserCredentials:
if (VUE_APP_CLIENT_SECRET and VUE_APP_CLIENT_ID.length). Reading .length
of an undefined VUE_APP_CLIENT_ID throws, which is the none case. -/
def loginSecretCheck (env : Env) : Option Bool :=
  if truthy env.clientSecret then
    match env.clientId with
    | some cid => some (cid.length != 0)
    | none => none
  else some false

/-- The redirect_uri guard in loginUserCredentials:
if (VUE_APP_REDIRECT_URI and VUE_APP_REDIRECT_URI.length). -/
def redirectUriCond (env : Env) : Bool :=
  match env.redirectUri with
  | none => false
  | some r => (r != "") && (r.length != 0)

/-- The optional redirect_uri entry of the login form. -/
def redirectUriPart (env : Env) : List (String × String) :=
  if redirectUriCond env then [("redirect_uri", envToStr env.redirectUri)] else []

/-- The form payload loginUserCredentials appends, in order; none when the
client_secret guard throws. -/
def loginForm (env : Env) (username password : String) : Option (List (String × String)) :=
  (loginSecretCheck env).map fun addSecret =>
    [("grant_type", "password"),
     ("client_id", envToStr env.clientId),
     ("username", username),
     ("password", password)]
    ++ (if addSecret then [("client_secret", envToStr env.clientSecret)] else [])
    ++ redirectUriPart env

/-- What loginUserCredentials does before its POST: build the form, then
setAccessToken(null). none when form building throws, in which case the
store is untouched. -/
def loginPrep (env : Env) (username password : String) (st : Store) :
    Option (List (String × String) × Store) :=
  (loginForm env username password).map fun f => (f, setAccessToken JSValue.null st)

/-- The POST loginUserCredentials issues for a given form:
tokenClient.post(oauthEndpoint, data) with form-encoded content type, no
Authorization override, and no skipAuthRefresh flag. -/
def loginPost (env : Env) (form : List (String × String)) : TokenPost :=
  { clientBaseURL := (tokenClient env).baseURL
    url := oauthEndpoint env
    form := form
    contentType := "application/x-www-form-urlencoded"
    authorizationHeader := none
    skipAuthRefresh := false }

/-- How a login call settles: fulfilled with the raw response or rejected
with the raw error. -/
inductive LoginResult where
  | fulfilled (resp : TokenResponse)
  | rejected
deriving DecidableEq, Repr

/-- The success continuation of loginUserCredentials: store access_token,
refresh_token and username. -/
def loginOnSuccess (resp : TokenResponse) (username : String) (st : Store) : Store :=
  { setAccessToken (JSValue.str resp.access_token) st with
    refresh_token := some resp.refresh_token
    username := some username }

/-- One whole run of loginUserCredentials against a simulated token
response (none = the POST failed): none when form building throws;
otherwise the resulting store and settlement. -/
def loginOutcome (env : Env) (username password : String) (st : Store)
    (resp : Option TokenResponse) : Option (Store × LoginResult) :=
  (loginPrep env username password st).map fun p =>
    match resp with
    | some r => (loginOnSuccess r username p.2, LoginResult.fulfilled r)
    | none => (p.2, LoginResult.rejected)

/-- logoutUser: three removeItem calls and nothing else, so it is a pure
store update with no network effect. -/
def logoutUser (st : Store) : Store :=
  { st with access_token := none, refresh_token := none, username := none }

/-- Whether module initialization issues the bootstrap GET: only in the
else branch of if (process.env.VUE_APP_CLIENT_ID). -/
def csrfGetIssued (env : Env) : Bool := !(truthy env.clientId)

/-- Module initialization: build the tokenClient; in CSRF mode issue the
bootstrap GET and, when it succeeds with a body, store the body verbatim
as csrfToken (csrfBody none = GET failed or pending, so the then-handler
never runs). In OAuth mode no network action and the store is untouched. -/
def moduleInit (env : Env) (st : Store) (csrfBody : Option String) : Client × Store :=
  if truthy env.clientId then
    (createClient env (oauthEndpoint env) true, st)
  else
    (createClient env (some (csrfEndpoint env)) true,
     match csrfBody with
     | some body => { st with csrfToken := some body }
     | none => st)

/-- A string has length zero exactly when it is empty. -/
theorem string_length_eq_zero_iff (s : String) : s.length = 0 ↔ s = "" := by
  constructor
  · intro h
    cases s with
    | mk data =>
      simp [String.length] at h
      simp [h]
  · intro h
    simp [h]

/-- Truthiness of an optional string means: present and non-empty. -/
theorem truthy_iff (v : Option String) : truthy v = true ↔ ∃ s, v = some s ∧ s ≠ "" := by
  cases v <;> simp [truthy]

/-- The client_secret guard of the refresh flow holds exactly when the
secret is configured and non-empty. -/
theorem clientSecretCond_iff (env : Env) :
    clientSecretCond env = true ↔ ∃ s, env.clientSecret = some s ∧ s ≠ "" := by
  cases h : env.clientSecret with
  | none => simp [clientSecretCond, h]
  | some s =>
    simp [clientSecretCond, h, string_length_eq_zero_iff]

/-- The redirect_uri guard of the login flow holds exactly when the
redirect URI is configured and non-empty. -/
theorem redirectUriCond_iff (env : Env) :
    redirectUriCond env = true ↔ ∃ r, env.redirectUri = some r ∧ r ≠ "" := by
  cases h : env.redirectUri with
  | none => simp [redirectUriCond, h]
  | some r =>
    simp [redirectUriCond, h, string_length_eq_zero_iff]

/-- Claim C1: for every request sent through a client created with
skipAuthLogic falsy, the request interceptor applies presence-driven
precedence over the store at send time: a present (truthy) access_token
yields an Authorization Bearer header and no X-CSRF-Token header; else a
present csrfToken yields an X-CSRF-Token header and no Authorization
header; else the request is unmodified. The interceptor is a total
function, so it returns the request and never fails. -/
theorem C1_request_authorizer_precedence (env : Env) (e : Option String) (st : Store)
    (req : Request)
    (hA : req.headers.authorization = none)
    (hC : req.headers.xCsrfToken = none) :
    (createClient env e false).hasRequestInterceptor = true ∧
    (∀ tok, st.access_token = some tok → tok ≠ "" →
      (requestInterceptor st req).headers.authorization = some ("Bearer " ++ tok) ∧
      (requestInterceptor st req).headers.xCsrfToken = none) ∧
    (truthy st.access_token = false →
      ∀ c, st.csrfToken = some c → c ≠ "" →
        (requestInterceptor st req).headers.xCsrfToken = some c ∧
        (requestInterceptor st req).headers.authorization = none) ∧
    (truthy st.access_token = false → truthy st.csrfToken = false →
      requestInterceptor st req = req) := by
  refine ⟨rfl, ?_, ?_, ?_⟩
  · intro tok htok hne
    have ht : truthy (some tok) = true := by simp [truthy, hne]
    simp [requestInterceptor, htok, ht, itemToStr, hC]
  · intro hat c hcs hne
    have hc : truthy (some c) = true := by simp [truthy, hne]
    simp [requestInterceptor, hat, hcs, hc, itemToStr, hA]
  · intro hat hct
    simp [requestInterceptor, hat, hct]

/-- Witness for C1 at a concrete store and request. -/
theorem C1_request_authorizer_precedence_witness :
    (requestInterceptor (Store.mk (some "A1") none none (some "CS"))
        (Request.mk "/jsonapi/node" (Headers.mk none none))).headers.authorization =
      some "Bearer A1" := by
  have h := C1_request_authorizer_precedence (Env.mk (some "cid") none none none none)
    (some "/api") (Store.mk (some "A1") none none (some "CS"))
    (Request.mk "/jsonapi/node" (Headers.mk none none)) rfl rfl
  simpa using (h.2.1 "A1" rfl (by decide)).1

/-- Claim C2: in OAuth mode with a stored refresh_token, one invocation of
the refresh logic issues exactly one POST whose form carries
grant_type=refresh_token, client_id, the stored refresh_token, and
client_secret exactly when the secret is configured and non-empty; on a
successful response the store access_token and refresh_token are
overwritten with the new values and the original failed request is
resolved for retry. -/
theorem C2_refresh_oauth (env : Env) (st : Store) (cid rt : String) (r : Request)
    (resp : TokenResponse)
    (hcid : env.clientId = some cid) (hne : cid ≠ "")
    (hrt : st.refresh_token = some rt) :
    refreshPosts env st = [refreshPost env st] ∧
    (refreshPost env st).form =
      [("grant_type", "refresh_token"), ("client_id", cid), ("refresh_token", rt)]
        ++ (if clientSecretCond env then [("client_secret", envToStr env.clientSecret)]
            else []) ∧
    (clientSecretCond env = true ↔ ∃ s, env.clientSecret = some s ∧ s ≠ "") ∧
    refreshOutcome st r (some resp) =
      ({ st with access_token := some resp.access_token,
                 refresh_token := some resp.refresh_token }, RefreshResult.retry r) := by
  refine ⟨rfl, ?_, clientSecretCond_iff env, ?_⟩
  · simp [refreshPost, refreshForm, hcid, hrt, envToStr, itemToStr]
  · rfl

/-- Witness for C2: the spec scenario, refresh response A2/R2 lands in the
store and the original request is retried. -/
theorem C2_refresh_oauth_witness :
    refreshOutcome (Store.mk none (some "R1") none none)
        (Request.mk "/x" (Headers.mk none none))
        (some (TokenResponse.mk "A2" "R2")) =
      (Store.mk (some "A2") (some "R2") none none,
       RefreshResult.retry (Request.mk "/x" (Headers.mk none none))) := by
  have h := C2_refresh_oauth (Env.mk (some "cid") none none none none)
    (Store.mk none (some "R1") none none) "cid" "R1"
    (Request.mk "/x" (Headers.mk none none)) (TokenResponse.mk "A2" "R2")
    rfl (by decide) rfl
  simpa using h.2.2.2

/-- Claim C3, evaluated at the failing input: a failed login leaves the
store access_token equal to the string "null" (setItem coerces the JS null
to "null"), which is truthy, so a subsequent request through an authorized
client carries the header Authorization: Bearer null. The claim that the
store then holds no active access token and that no Authorization header
is attached is refuted; other slots are indeed untouched. -/
theorem C3_failed_login_stores_string_null :
    loginOutcome (Env.mk (some "cid") none none none none) "alice" "pw"
        (Store.mk (some "OLD") (some "R0") (some "alice") none) none =
      some (Store.mk (some "null") (some "R0") (some "alice") none,
            LoginResult.rejected) ∧
    truthy (Store.mk (some "null") (some "R0") (some "alice") none).access_token = true ∧
    (requestInterceptor (Store.mk (some "null") (some "R0") (some "alice") none)
        (Request.mk "/jsonapi" (Headers.mk none none))).headers.authorization =
      some "Bearer null" := by
  refine ⟨rfl, rfl, rfl⟩

/-- Under OAuth mode (non-empty clientId) the login client_secret guard,
despite reading the length of clientId rather than of clientSecret, reduces
to the truthiness of clientSecret. -/
theorem loginSecretCheck_oauth (env : Env) (cid : String)
    (hcid : env.clientId = some cid) (hne : cid ≠ "") :
    loginSecretCheck env = some (truthy env.clientSecret) := by
  by_cases h : truthy env.clientSecret = true
  · have hlen : (cid.length != 0) = true := by
      simp [string_length_eq_zero_iff, hne]
    simp [loginSecretCheck, h, hcid, hlen]
  · have h2 : truthy env.clientSecret = false := by
      cases hb : truthy env.clientSecret
      · rfl
      · exact absurd hb h
    simp [loginSecretCheck, h2]

/-- Claim C4: in OAuth mode, login builds a form with grant_type=password,
client_id, username and password, plus client_secret exactly when the
secret is present and non-empty, plus redirect_uri exactly when the
redirect URI is present and non-empty; on success the store holds the
response tokens and the argument username, and the call fulfills with the
raw response. -/
theorem C4_login_oauth (env : Env) (u p cid : String) (st : Store) (resp : TokenResponse)
    (hcid : env.clientId = some cid) (hne : cid ≠ "") :
    loginForm env u p = some (
      [("grant_type", "password"), ("client_id", cid), ("username", u), ("password", p)]
      ++ (if truthy env.clientSecret then [("client_secret", envToStr env.clientSecret)]
          else [])
      ++ redirectUriPart env) ∧
    (truthy env.clientSecret = true ↔ ∃ s, env.clientSecret = some s ∧ s ≠ "") ∧
    (redirectUriCond env = true ↔ ∃ r2, env.redirectUri = some r2 ∧ r2 ≠ "") ∧
    redirectUriPart env =
      (if redirectUriCond env then [("redirect_uri", envToStr env.redirectUri)] else []) ∧
    loginOutcome env u p st (some resp) =
      some ({ st with access_token := some resp.access_token,
                      refresh_token := some resp.refresh_token,
                      username := some u }, LoginResult.fulfilled resp) := by
  have hsc := loginSecretCheck_oauth env cid hcid hne
  refine ⟨?_, truthy_iff env.clientSecret, redirectUriCond_iff env, rfl, ?_⟩
  · simp [loginForm, hsc, hcid, envToStr]
  · simp [loginOutcome, loginPrep, loginForm, hsc, loginOnSuccess, setAccessToken,
      JSValue.toStr]

/-- Witness for C4: the spec login scenario, tokens T1/R1 and username
alice land in the store and the call fulfills with the raw response. -/
theorem C4_login_oauth_witness :
    loginOutcome (Env.mk (some "cid") (some "sec") none none none) "alice" "secret1"
        (Store.mk none none none (some "CS")) (some (TokenResponse.mk "T1" "R1")) =
      some (Store.mk (some "T1") (some "R1") (some "alice") (some "CS"),
            LoginResult.fulfilled (TokenResponse.mk "T1" "R1")) := by
  have h := C4_login_oauth (Env.mk (some "cid") (some "sec") none none none)
    "alice" "secret1" "cid" (Store.mk none none none (some "CS"))
    (TokenResponse.mk "T1" "R1") rfl (by decide)
  simpa using h.2.2.2.2

/-- Claim C5: createClient with skipAuthLogic truthy attaches neither
interceptor; with skipAuthLogic falsy it always attaches the request
interceptor and attaches the refresh interceptor exactly when Mode is
OAuth; construction is a total function and never fails. -/
theorem C5_createClient_wiring (env : Env) (e : Option String) (b : Bool) :
    (createClient env e b).baseURL = e ∧
    (b = true → (createClient env e b).hasRequestInterceptor = false ∧
      (createClient env e b).hasRefreshInterceptor = false) ∧
    (b = false → (createClient env e b).hasRequestInterceptor = true ∧
      (createClient env e b).hasRefreshInterceptor = isOAuth env) := by
  refine ⟨rfl, ?_, ?_⟩ <;> intro hb <;> subst hb <;> simp [createClient, isOAuth]

/-- Witness for C5 at a concrete OAuth environment. -/
theorem C5_createClient_wiring_witness :
    (createClient (Env.mk (some "cid") none none none none) (some "/api")
        false).hasRefreshInterceptor = true := by
  have h := C5_createClient_wiring (Env.mk (some "cid") none none none none)
    (some "/api") false
  have h2 := (h.2.2 rfl).2
  simpa [isOAuth, truthy] using h2

/-- Claim C6: Mode is OAuth exactly when clientId is present and
non-empty; module initialization in OAuth mode issues no CSRF GET and
leaves the store untouched, while in CSRF mode it issues the GET on a
client with both interceptors disabled, bound to the CSRF endpoint, and on
success stores the response body verbatim as csrfToken. -/
theorem C6_mode_resolver_and_bootstrap (env : Env) (st : Store) (body : Option String) :
    (isOAuth env = true ↔ ∃ s, env.clientId = some s ∧ s ≠ "") ∧
    (isOAuth env = true →
      csrfGetIssued env = false ∧
      moduleInit env st body = (createClient env (oauthEndpoint env) true, st)) ∧
    (isOAuth env = false →
      csrfGetIssued env = true ∧
      (moduleInit env st body).1 = createClient env (some (csrfEndpoint env)) true ∧
      (moduleInit env st body).1.hasRequestInterceptor = false ∧
      (moduleInit env st body).1.hasRefreshInterceptor = false ∧
      (∀ b, body = some b → (moduleInit env st body).2 =
        { st with csrfToken := some b }) ∧
      (body = none → (moduleInit env st body).2 = st)) := by
  refine ⟨truthy_iff env.clientId, ?_, ?_⟩
  · intro h
    have ht : truthy env.clientId = true := h
    simp [csrfGetIssued, ht, moduleInit]
  · intro h
    have ht : truthy env.clientId = false := h
    refine ⟨by simp [csrfGetIssued, ht], by simp [moduleInit, ht],
      by simp [moduleInit, ht, createClient], by simp [moduleInit, ht, createClient],
      ?_, ?_⟩
    · intro b hb
      subst hb
      simp [moduleInit, ht]
    · intro hb
      subst hb
      simp [moduleInit, ht]

/-- Witness for C6: the spec bootstrap scenario, body tok123 is stored as
csrfToken in CSRF mode. -/
theorem C6_mode_resolver_and_bootstrap_witness :
    (moduleInit (Env.mk none none none none none) (Store.mk none none none none)
        (some "tok123")).2 = Store.mk none none none (some "tok123") := by
  have h := C6_mode_resolver_and_bootstrap (Env.mk none none none none none)
    (Store.mk none none none none) (some "tok123")
  simpa using (h.2.2 rfl).2.2.2.2.1 "tok123" rfl

/-- Claim C7: when the refresh POST fails, the rejection propagates, the
store is left entirely unchanged (tokens neither cleared nor overwritten),
no logout is triggered, and only the single refresh POST was issued. -/
theorem C7_refresh_failure_propagates (env : Env) (st : Store) (r : Request) :
    refreshOutcome st r none = (st, RefreshResult.rejected) ∧
    (refreshPosts env st).length = 1 :=
  ⟨rfl, rfl⟩

/-- Claim C8: logout removes exactly the keys access_token, refresh_token
and username (csrfToken is untouched), performs no network call (it is a
pure store update), and is idempotent, including from an empty store. -/
theorem C8_logout_idempotent (st : Store) :
    logoutUser st =
      { st with access_token := none, refresh_token := none, username := none } ∧
    (logoutUser st).csrfToken = st.csrfToken ∧
    logoutUser (logoutUser st) = logoutUser st ∧
    logoutUser (Store.mk none none none none) = Store.mk none none none none :=
  ⟨rfl, rfl, rfl, rfl⟩

/-- Claim C9: the csrfToken slot is never written by login (success or
failure), by the refresh flow (success or failure), or by logout. -/
theorem C9_csrfToken_frame (env : Env) (u p : String) (st : Store)
    (resp : Option TokenResponse) (r : Request) :
    (∀ x, loginOutcome env u p st resp = some x → x.1.csrfToken = st.csrfToken) ∧
    (refreshOutcome st r resp).1.csrfToken = st.csrfToken ∧
    (logoutUser st).csrfToken = st.csrfToken := by
  refine ⟨?_, ?_, rfl⟩
  · intro x hx
    cases hf : loginForm env u p with
    | none => simp [loginOutcome, loginPrep, hf] at hx
    | some f =>
      cases resp with
      | none =>
        simp [loginOutcome, loginPrep, hf] at hx
        rw [← hx]
        simp [setAccessToken]
      | some tr =>
        simp [loginOutcome, loginPrep, hf] at hx
        rw [← hx]
        simp [loginOnSuccess, setAccessToken]
  · cases resp with
    | none => rfl
    | some tr => rfl

/-- Witness for C9 at a concrete failed login. -/
theorem C9_csrfToken_frame_witness :
    (Store.mk (some "null") (some "R") (some "u") (some "CS"),
      LoginResult.rejected).1.csrfToken = some "CS" := by
  have h := C9_csrfToken_frame (Env.mk (some "cid") none none none none) "alice" "pw"
    (Store.mk (some "A") (some "R") (some "u") (some "CS")) none
    (Request.mk "/x" (Headers.mk none none))
  exact h.1 (Store.mk (some "null") (some "R") (some "u") (some "CS"),
    LoginResult.rejected) rfl

/-- Claim C10: with no stored refresh_token the refresh flow does not
short-circuit: it still issues its single POST and the refresh_token form
field carries the string coercion of the absent value, "null". -/
theorem C10_refresh_without_stored_token (env : Env) (st : Store)
    (h : st.refresh_token = none) :
    refreshPosts env st = [refreshPost env st] ∧
    ("refresh_token", "null") ∈ (refreshPost env st).form := by
  refine ⟨rfl, ?_⟩
  simp [refreshPost, refreshForm, h, itemToStr]

/-- Witness for C10 at an empty store. -/
theorem C10_refresh_without_stored_token_witness :
    ("refresh_token", "null") ∈
      (refreshPost (Env.mk (some "cid") none none none none)
        (Store.mk none none none none)).form := by
  have h := C10_refresh_without_stored_token (Env.mk (some "cid") none none none none)
    (Store.mk none none none none) rfl
  exact h.2

end VueDrupalAuth
